import Mathlib

/-!
Verification development for the oreilly-book-rag quiz backend.

The definitions below are shallow embeddings of the Python services in
`backend/app/services/quiz_manager.py`, `backend/app/services/learning_analytics.py`
and the SQLAlchemy models in `backend/app/models/quiz_models.py`:

* floats used for scores become `ℚ`;
* Python ints become `ℕ`/`ℤ` (Python `//` on non-negative ints is `Nat.div`,
  Python `min`/`max` are `min`/`max`);
* `datetime` values become `ℤ` timestamps measured in days, so
  `now + timedelta(days = n)` becomes `now + n`;
* JSON-ish dynamic values (`user_answer: Any`, `correct_answer`) become `PyVal`;
* fallible service calls become `Except`;
* SQLAlchemy column defaults become the corresponding initial field values.
-/

/-- Dynamic (JSON-like) Python value, as stored in the `user_answer` /
`correct_answer` JSON columns and passed to `_evaluate_answer`. -/
inductive PyVal where
  | none
  | bool (b : Bool)
  | int (n : Int)
  | str (s : String)
  | list (xs : List PyVal)
deriving Repr

/-- Python truthiness: `bool(x)`.  `None` and empty containers/strings and `0`
are falsy, everything else is truthy. -/
def PyVal.truthy : PyVal → Bool
  | .none => false
  | .bool b => b
  | .int n => n != 0
  | .str s => !s.isEmpty
  | .list xs => !xs.isEmpty

mutual

/-- Python `str(x)` for the values of `PyVal`.  (For a list Python would render
the elements with `repr`, quoting nested strings; no claim depends on the list
rendering, so elements are rendered with `str` here.) -/
def PyVal.toStr : PyVal → String
  | .none => "None"
  | .bool b => if b then "True" else "False"
  | .int n => toString n
  | .str s => s
  | .list xs => "[" ++ pyListStr xs ++ "]"

/-- Comma-separated rendering of the elements of a Python list. -/
def pyListStr : List PyVal → String
  | [] => ""
  | [x] => x.toStr
  | x :: y :: xs => x.toStr ++ ", " ++ pyListStr (y :: xs)

end

/-- Python `strip()`: drop whitespace from both ends of a character list. -/
def pyStrip (cs : List Char) : List Char :=
  ((cs.dropWhile Char.isWhitespace).reverse.dropWhile Char.isWhitespace).reverse

/-- `str(x).strip().lower()`, the normalisation used throughout
`QuizManagerService._evaluate_answer`.  Implemented structurally over the
character list (the primitives `String.trim`/`String.toLower` use
well-founded recursion and do not evaluate definitionally); like those
primitives it lowercases the ASCII range, which is where all quiz answer
keys live. -/
def pyCleanStr (v : PyVal) : String :=
  String.mk ((pyStrip v.toStr.data).map Char.toLower)

/-- `QuizManagerService._evaluate_answer` (`quiz_manager.py` lines 555-579).
The four `QuestionType` enum values compared against are
`multiple_choice`, `true_false`, `fill_in_blank`, `short_answer`
(`quiz_generator.py` lines 26-31).  Any other type falls through to the
final `return False`. -/
def evaluate_answer (question_type : String) (correct_answer : PyVal)
    (user_answer : PyVal) : Bool :=
  if question_type = "multiple_choice" then
    pyCleanStr user_answer == pyCleanStr correct_answer
  else if question_type = "true_false" then
    user_answer.truthy == correct_answer.truthy
  else if question_type = "fill_in_blank" then
    pyCleanStr user_answer == pyCleanStr correct_answer
  else if question_type = "short_answer" then
    decide ((pyCleanStr user_answer).toList <:+: (pyCleanStr correct_answer).toList)
      || decide ((pyCleanStr correct_answer).toList <:+: (pyCleanStr user_answer).toList)
  else
    false

/-- `UserProgress` row (`quiz_models.py` lines 131-161), restricted to the
columns the services read or write.  `next_review_date` is nullable, hence
`Option`. -/
structure UserProgressS where
  user_id : String
  topic : String
  total_quizzes_taken : ℕ
  total_questions_answered : ℕ
  correct_answers : ℕ
  average_score : ℚ
  mastery_level : String
  mastery_score : ℚ
  suggested_difficulty : String
  next_review_date : Option Int
  spaced_repetition_interval : ℕ
  last_updated : Int
deriving Repr, DecidableEq

/-- A fresh `UserProgress` row with the column defaults of `quiz_models.py`
(lines 140-158): counters 0, `mastery_level = "novice"`, scores 0,
`suggested_difficulty = "beginner"`, no review date, interval 1 day. -/
def progDefault : UserProgressS :=
  { user_id := "u"
    topic := "t"
    total_quizzes_taken := 0
    total_questions_answered := 0
    correct_answers := 0
    average_score := 0
    mastery_level := "novice"
    mastery_score := 0
    suggested_difficulty := "beginner"
    next_review_date := Option.none
    spaced_repetition_interval := 1
    last_updated := 0 }

/-- Interval step of `LearningAnalyticsService.update_spaced_repetition`
(`learning_analytics.py` lines 294-305): three branches on the performance
score, doubling capped at 90, unchanged, or halving floored at 1. -/
def update_interval_la (current_interval : ℕ) (performance_score : ℚ) : ℕ :=
  if performance_score ≥ 80 then
    min (current_interval * 2) 90
  else if performance_score ≥ 60 then
    current_interval
  else
    max (current_interval / 2) 1

/-- `LearningAnalyticsService.update_spaced_repetition` effect on the
progress row (`learning_analytics.py` lines 294-310). -/
def update_spaced_repetition_la (p : UserProgressS) (performance_score : ℚ)
    (now : Int) : UserProgressS :=
  let new_interval := update_interval_la p.spaced_repetition_interval performance_score
  { p with
    spaced_repetition_interval := new_interval
    next_review_date := some (now + new_interval)
    last_updated := now }

/-- `QuizManagerService._update_spaced_repetition` (`quiz_manager.py`
lines 464-474): only two branches, doubling capped at **30** when the session
score is at least 80, otherwise halving floored at 1; then
`next_review_date = now + interval` days. -/
def update_spaced_repetition_qm (p : UserProgressS) (session_score : ℚ)
    (now : Int) : UserProgressS :=
  let new_interval :=
    if session_score ≥ 80 then
      min (p.spaced_repetition_interval * 2) 30
    else
      max (p.spaced_repetition_interval / 2) 1
  { p with
    spaced_repetition_interval := new_interval
    next_review_date := some (now + new_interval) }

/-- The spec formula for the scheduler (§4.4 of the spec, quoted by claim C1):
`min(i*2, 90)` when `s ≥ 80`, unchanged when `60 ≤ s < 80`, `max(i // 2, 1)`
when `s < 60`.  Stated from the spec wording, to be compared against the
source embeddings. -/
def updateIntervalSpec (i : ℕ) (s : ℚ) : ℕ :=
  if s ≥ 80 then min (i * 2) 90
  else if 60 ≤ s ∧ s < 80 then i
  else max (i / 2) 1

/-- `QuizManagerService._calculate_mastery_score` (`quiz_manager.py` lines
449-462): base average score plus an experience bonus `min(quizzes*2, 20)`,
times a consistency factor that the source fixes at `1.0`, capped at 100. -/
def calculate_mastery_score (progress : UserProgressS) : ℚ :=
  let base_score := progress.average_score
  let experience_bonus : ℕ := min (progress.total_quizzes_taken * 2) 20
  let consistency_factor : ℚ := 1
  min ((base_score + (experience_bonus : ℚ)) * consistency_factor) 100

/-- `QuizManagerService._calculate_mastery_level` (`quiz_manager.py` lines
438-447). -/
def calculate_mastery_level (progress : UserProgressS) : String :=
  if progress.average_score ≥ 90 ∧ progress.total_quizzes_taken ≥ 5 then
    "expert"
  else if progress.average_score ≥ 80 ∧ progress.total_quizzes_taken ≥ 3 then
    "proficient"
  else if progress.average_score ≥ 60 ∧ progress.total_quizzes_taken ≥ 2 then
    "learning"
  else
    "novice"

/-- The spec formula for the stored mastery score (§4.3, quoted by claim C6):
`min(100, averageScore + experienceBonus)` with
`experienceBonus = min(quizzesTaken * 2, 20)`. -/
def masteryScoreSpec (averageScore : ℚ) (quizzesTaken : ℕ) : ℚ :=
  min 100 (averageScore + (min (quizzesTaken * 2) 20 : ℕ))

/-- `QuizManagerService._suggest_next_difficulty` (`quiz_manager.py` lines
411-436), as a function of the quiz difficulty of the latest session and its
score. -/
def suggest_next_difficulty (current_difficulty : String) (score : ℚ) : String :=
  if score ≥ 85 then
    if current_difficulty = "beginner" then "intermediate"
    else if current_difficulty = "intermediate" then "advanced"
    else "advanced"
  else if score ≤ 60 then
    if current_difficulty = "advanced" then "intermediate"
    else if current_difficulty = "intermediate" then "beginner"
    else "beginner"
  else
    current_difficulty

/-- Status of a quiz session (`QuizStatus` enum, `quiz_manager.py` lines 28-32). -/
inductive QuizStatus where
  | in_progress
  | completed
  | abandoned
deriving Repr, DecidableEq

/-- A question from the immutable per-session snapshot `questions_data`
(the fields of the dict that `submit_answer` reads; see `QuizQuestion` in
`quiz_generator.py` lines 41-53). -/
structure QuizQuestionD where
  id : String
  question_type : String
  question_text : String
  correct_answer : PyVal
  topic : String
  difficulty : String
  explanation : String
deriving Repr

/-- `UserResponse` row as created by `submit_answer`
(`quiz_models.py` lines 76-98, `quiz_manager.py` lines 286-297). -/
structure UserResponseS where
  session_id : String
  question_id : String
  question_type : String
  question_text : String
  correct_answer : PyVal
  topic : String
  difficulty : String
  user_answer : PyVal
  is_correct : Bool
  time_taken : Option Int
deriving Repr

/-- `QuizSession` row (`quiz_models.py` lines 42-73), restricted to the
columns the session state machine reads or writes.  Column defaults:
`status = in_progress`, counters 0, `score = 0.0`, `passed = False`. -/
structure QuizSessionS where
  id : String
  quiz_id : String
  user_id : Option String
  status : QuizStatus
  started_at : Int
  completed_at : Option Int
  total_questions : ℕ
  answered_questions : ℕ
  correct_answers : ℕ
  score : ℚ
  passed : Bool
  current_question : ℕ
  questions_data : List QuizQuestionD
deriving Repr

/-- Quiz configuration consumed by the session flow (`Quiz` in
`quiz_models.py` lines 15-39; only the columns the flow reads). -/
structure QuizB where
  topic : String
  difficulty_level : String
  passing_score : ℚ
deriving Repr

/-- The session as created by `start_quiz_session` (`quiz_manager.py` lines
207-219): `in_progress`, `total_questions = len(questions)`, all counters at
their column defaults. -/
def start_quiz_session (quiz_id : String) (user_id : Option String)
    (sid : String) (questions : List QuizQuestionD) (now : Int) : QuizSessionS :=
  { id := sid
    quiz_id := quiz_id
    user_id := user_id
    status := .in_progress
    started_at := now
    completed_at := Option.none
    total_questions := questions.length
    answered_questions := 0
    correct_answers := 0
    score := 0
    passed := false
    current_question := 0
    questions_data := questions }

/-- `QuizManagerService._complete_quiz_session` (`quiz_manager.py` lines
339-348) on the session columns: status `completed`,
`score = correct/total*100`, `passed = score >= quiz.passing_score`.
(The cascading `UserProgress`/analytics updates are modelled separately by
`update_user_progress`.) -/
def complete_quiz_session (quiz : QuizB) (s : QuizSessionS) (now : Int) :
    QuizSessionS :=
  let s1 := { s with
    status := QuizStatus.completed
    completed_at := some now
    score := ((s.correct_answers : ℚ) / (s.total_questions : ℚ)) * 100 }
  { s1 with passed := decide (s1.score ≥ quiz.passing_score) }

/-- Per-session database state: the session row together with the
`user_responses` rows of that session. -/
structure SessionState where
  session : QuizSessionS
  responses : List UserResponseS
deriving Repr

/-- Request model for submitting an answer (`QuizAnswerRequest`,
`quiz_manager.py` lines 65-70). -/
structure AnswerRequest where
  session_id : String
  question_id : String
  user_answer : PyVal
  time_taken : Option Int
deriving Repr

/-- Failure modes of `submit_answer`: the `ValueError` messages raised at
`quiz_manager.py` lines 253, 256, 266 and 277. -/
inductive SubmitError where
  | sessionNotFound
  | sessionNotActive
  | questionNotFound
  | duplicateAnswer
deriving Repr, DecidableEq

/-- `QuizManagerService.submit_answer` (`quiz_manager.py` lines 233-337) as a
transition on the per-session database state.  The checks follow the source
order: session lookup, status, question lookup in the snapshot, duplicate
check against the `user_responses` table, then evaluation, response insert,
counter updates and - when `answered >= total` - completion.  A raised
`ValueError` rolls the transaction back, so an error leaves the state
unchanged (see `run_submits`). -/
def submit_answer (quiz : QuizB) (st : SessionState) (req : AnswerRequest)
    (now : Int) : Except SubmitError SessionState :=
  let session := st.session
  if req.session_id ≠ session.id then
    .error .sessionNotFound
  else if session.status ≠ QuizStatus.in_progress then
    .error .sessionNotActive
  else
    match session.questions_data.find? (fun q => q.id == req.question_id) with
    | Option.none => .error .questionNotFound
    | some question_data =>
      if st.responses.any (fun r =>
          r.session_id == req.session_id && r.question_id == req.question_id) then
        .error .duplicateAnswer
      else
        let is_correct :=
          evaluate_answer question_data.question_type question_data.correct_answer
            req.user_answer
        let response : UserResponseS :=
          { session_id := req.session_id
            question_id := req.question_id
            question_type := question_data.question_type
            question_text := question_data.question_text
            correct_answer := question_data.correct_answer
            topic := question_data.topic
            difficulty := question_data.difficulty
            user_answer := req.user_answer
            is_correct := is_correct
            time_taken := req.time_taken }
        let session1 := { session with
          answered_questions := session.answered_questions + 1
          correct_answers := session.correct_answers + (if is_correct then 1 else 0)
          current_question := session.current_question + 1 }
        let session2 :=
          if session1.answered_questions ≥ session1.total_questions then
            complete_quiz_session quiz session1 now
          else
            session1
        .ok { session := session2, responses := st.responses ++ [response] }

/-- Run a sequence of answer submissions (each with its timestamp); a failed
submission rolls back and leaves the state unchanged. -/
def run_submits (quiz : QuizB) (st : SessionState)
    (reqs : List (AnswerRequest × Int)) : SessionState :=
  reqs.foldl
    (fun s rn =>
      match submit_answer quiz s rn.1 rn.2 with
      | .ok s1 => s1
      | .error _ => s)
    st

/-- `QuizManagerService._update_user_progress` (`quiz_manager.py` lines
359-398) on an existing progress row for `(user, quiz.topic)`: bump the
cumulative counters, recompute the average, the mastery level and score, the
suggested difficulty, and apply the quiz-manager spaced-repetition update. -/
def update_user_progress (quiz : QuizB) (session : QuizSessionS)
    (progress : UserProgressS) (now : Int) : UserProgressS :=
  let p1 := { progress with
    total_quizzes_taken := progress.total_quizzes_taken + 1
    total_questions_answered :=
      progress.total_questions_answered + session.total_questions
    correct_answers := progress.correct_answers + session.correct_answers }
  let p2 := { p1 with
    average_score :=
      ((p1.correct_answers : ℚ) / (p1.total_questions_answered : ℚ)) * 100 }
  let p3 := { p2 with
    mastery_level := calculate_mastery_level p2
    mastery_score := calculate_mastery_score p2
    suggested_difficulty := suggest_next_difficulty quiz.difficulty_level session.score }
  update_spaced_repetition_qm p3 session.score now

/-- `LearningAnalyticsService._get_repetition_level` (`learning_analytics.py`
lines 337-350): display buckets at 1, 3, 7, 14, 30 days, `mastered` above. -/
def get_repetition_level (interval_days : ℕ) : String :=
  if interval_days ≤ 1 then "level_1"
  else if interval_days ≤ 3 then "level_2"
  else if interval_days ≤ 7 then "level_3"
  else if interval_days ≤ 14 then "level_4"
  else if interval_days ≤ 30 then "level_5"
  else "mastered"

/-- `SpacedRepetitionItem` dataclass (`learning_analytics.py` lines 67-77). -/
structure SpacedRepetitionItem where
  topic : String
  difficulty : String
  last_reviewed : Int
  next_review : Int
  repetition_level : String
  success_rate : ℚ
  review_count : ℕ
deriving Repr, DecidableEq

/-- The item built for a due progress row inside
`LearningAnalyticsService.get_spaced_repetition_items`
(`learning_analytics.py` lines 237-254), where `d` is the row's non-null
`next_review_date`. -/
def sr_item_of (p : UserProgressS) (d : Int) : SpacedRepetitionItem :=
  { topic := p.topic
    difficulty := p.suggested_difficulty
    last_reviewed := p.last_updated
    next_review := d
    repetition_level := get_repetition_level p.spaced_repetition_interval
    success_rate :=
      if p.total_questions_answered > 0 then
        (p.correct_answers : ℚ) / (p.total_questions_answered : ℚ)
      else 0
    review_count := p.total_quizzes_taken }

/-- Sort key of `sr_items.sort(key=lambda x: (x.next_review, -x.success_rate))`
(`learning_analytics.py` line 257): lexicographic on the review date and the
negated success rate. -/
def srKey (a : SpacedRepetitionItem) : Int ×ₗ ℚ :=
  toLex (a.next_review, -a.success_rate)

/-- The total preorder that the source sort key induces on items:
review date ascending, ties broken by success rate DESCENDING. -/
def srKeyLE (a b : SpacedRepetitionItem) : Prop :=
  srKey a ≤ srKey b

instance : DecidableRel srKeyLE :=
  fun a b => inferInstanceAs (Decidable (srKey a ≤ srKey b))

instance : IsTotal SpacedRepetitionItem srKeyLE :=
  ⟨fun a b => le_total (srKey a) (srKey b)⟩

instance : IsTrans SpacedRepetitionItem srKeyLE :=
  ⟨fun _ _ _ hab hbc => le_trans hab hbc⟩

/-- The ordering claimed by the spec (§4.4, quoted by claim C2):
review date ascending, ties broken by success rate ASCENDING. -/
def srClaimLE (a b : SpacedRepetitionItem) : Prop :=
  toLex (a.next_review, a.success_rate) ≤ toLex (b.next_review, b.success_rate)

instance : DecidableRel srClaimLE :=
  fun a b =>
    inferInstanceAs
      (Decidable (toLex (a.next_review, a.success_rate) ≤
        toLex (b.next_review, b.success_rate)))

/-- `LearningAnalyticsService.get_spaced_repetition_items`
(`learning_analytics.py` lines 214-260): keep the progress rows whose
`next_review_date` is non-null and `<= now`, build an item for each, and
sort with the key of line 257.  Python `list.sort` is a stable sort by the
key; `List.insertionSort` with the induced total preorder is also stable, so
it computes the same list. -/
def get_spaced_repetition_items (progress_records : List UserProgressS)
    (now : Int) : List SpacedRepetitionItem :=
  let sr_items := progress_records.filterMap (fun p =>
    match p.next_review_date with
    | some d => if d ≤ now then some (sr_item_of p d) else Option.none
    | Option.none => Option.none)
  List.insertionSort srKeyLE sr_items

/-- A missed-question sample recorded for a topic
(`learning_analytics.py` lines 472-476). -/
structure MissedQ where
  question : String
  difficulty : String
  type : String
deriving Repr, DecidableEq

/-- Per-topic tally built by `identify_knowledge_gaps`
(`learning_analytics.py` lines 464-476): total responses, correct responses,
and the missed questions in response order. -/
structure TopicPerf where
  total : ℕ
  correct : ℕ
  questions : List MissedQ
deriving Repr, DecidableEq

/-- Fold one response into the tally of its topic. -/
def bumpPerf (t : TopicPerf) (r : UserResponseS) : TopicPerf :=
  { total := t.total + 1
    correct := t.correct + (if r.is_correct then 1 else 0)
    questions :=
      if r.is_correct then t.questions
      else t.questions ++
        [{ question := r.question_text, difficulty := r.difficulty,
           type := r.question_type }] }

/-- One iteration of the tally loop of `identify_knowledge_gaps`
(`learning_analytics.py` lines 466-476): fold the response into the existing
entry of its topic, or open a new entry at the end (first-seen order, as a
Python dict iterates). -/
def tp_step (acc : List (String × TopicPerf)) (r : UserResponseS) :
    List (String × TopicPerf) :=
  if acc.any (fun kv => kv.1 == r.topic) then
    acc.map (fun kv => if kv.1 == r.topic then (kv.1, bumpPerf kv.2 r) else kv)
  else
    acc ++ [(r.topic, bumpPerf ⟨0, 0, []⟩ r)]

/-- The `topic_performance` defaultdict of `identify_knowledge_gaps`
(`learning_analytics.py` lines 464-476), as an association list in first-seen
topic order (Python dicts iterate in insertion order). -/
def topic_performance (responses : List UserResponseS) :
    List (String × TopicPerf) :=
  responses.foldl tp_step []

/-- A knowledge-gap record (`learning_analytics.py` lines 483-489). -/
structure GapInfo where
  topic : String
  accuracy : ℚ
  total_questions : ℕ
  weak_areas : List MissedQ
  severity : String
deriving Repr, DecidableEq

/-- The gap list of `identify_knowledge_gaps` (`learning_analytics.py`
lines 479-489): one record per topic with accuracy below 70, with severity
`high` below 50 and `medium` otherwise, and the first 5 missed questions. -/
def gapsOf (tp : List (String × TopicPerf)) : List GapInfo :=
  tp.filterMap (fun kv =>
    let accuracy := ((kv.2.correct : ℚ) / (kv.2.total : ℚ)) * 100
    if accuracy < 70 then
      some
        { topic := kv.1
          accuracy := accuracy
          total_questions := kv.2.total
          weak_areas := kv.2.questions.take 5
          severity := if accuracy < 50 then "high" else "medium" }
    else Option.none)

/-- Result of `identify_knowledge_gaps` (`learning_analytics.py` lines
441-512), restricted to the fields the claims are about.  (The derived
`recommendations` list and the timestamp are omitted; in the empty-response
early return `total_responses` is 0.) -/
structure GapAnalysis where
  gaps : List GapInfo
  total_responses : ℕ
  confidence : ℚ
deriving Repr, DecidableEq

/-- `LearningAnalyticsService.identify_knowledge_gaps` over the user's
completed-session responses: early return on no data, otherwise the gaps of
the per-topic tally and `confidence = min(1.0, len(responses)/50)`. -/
def identify_knowledge_gaps (responses : List UserResponseS) : GapAnalysis :=
  if responses.isEmpty then
    { gaps := [], total_responses := 0, confidence := 0 }
  else
    { gaps := gapsOf (topic_performance responses)
      total_responses := responses.length
      confidence := min 1 ((responses.length : ℚ) / 50) }

/-- An insight emitted by `_generate_performance_insights`
(`learning_analytics.py` lines 753-764); the formatted message is reduced to
its type tag and confidence. -/
structure Insight where
  type : String
  confidence : ℚ
deriving Repr, DecidableEq

/-- Sum of the scores of a list of sessions (`sum(s.score for s in ...)`). -/
def sumScores (sessions : List QuizSessionS) : ℚ :=
  sessions.foldl (fun acc s => acc + s.score) 0

/-- `LearningAnalyticsService._generate_performance_insights`
(`learning_analytics.py` lines 743-766): with at least two sessions, compare
the average score of the first half (`sessions[:mid]`, `mid = len // 2`)
with the second half; emit an improvement insight when the second-half
average STRICTLY exceeds the first-half average plus 5, a regression insight
in the symmetric case, both at confidence 0.8. -/
def generate_performance_insights (sessions : List QuizSessionS) :
    List Insight :=
  if sessions.length ≥ 2 then
    let mid_point := sessions.length / 2
    let first_half_avg := sumScores (sessions.take mid_point) / (mid_point : ℚ)
    let second_half_avg :=
      sumScores (sessions.drop mid_point) / ((sessions.length - mid_point : ℕ) : ℚ)
    if second_half_avg > first_half_avg + 5 then
      [{ type := "improvement", confidence := 8/10 }]
    else if first_half_avg > second_half_avg + 5 then
      [{ type := "regression", confidence := 8/10 }]
    else []
  else []

/-- A row of the `user_responses` table at the storage level
(`quiz_models.py` lines 76-98) - the service-level fields plus the `id`
primary-key column. -/
structure UserResponseRow where
  id : String
  session_id : String
  question_id : String
deriving Repr, DecidableEq

/-- The uniqueness requirements the `user_responses` table declares
(`quiz_models.py` lines 76-98): the primary key `id` is the ONLY unique
column; no `UniqueConstraint` and no `unique=True` mentions
`(session_id, question_id)`. -/
def user_responses_schema_ok (rows : List UserResponseRow) : Prop :=
  (rows.map (fun r => r.id)).Nodup

instance : ∀ rows, Decidable (user_responses_schema_ok rows) :=
  fun rows =>
    inferInstanceAs
      (Decidable ((rows.map (fun r : UserResponseRow => r.id)).Nodup))

/-- The learning-analytics interval step agrees everywhere with the spec
formula of §4.4. -/
lemma update_interval_la_eq_spec (i : ℕ) (s : ℚ) :
    update_interval_la i s = updateIntervalSpec i s := by
  unfold update_interval_la updateIntervalSpec
  split_ifs with h1 h2 h3 h4 <;> try rfl
  · exact absurd ⟨h2, lt_of_not_le h1⟩ h3
  · exact absurd h4.1 h2

/-- One learning-analytics interval step never leaves the band `[0, 90]`. -/
lemma update_interval_la_le_90 {i : ℕ} (hi : i ≤ 90) (s : ℚ) :
    update_interval_la i s ≤ 90 := by
  unfold update_interval_la
  split_ifs with h1 h2
  · exact min_le_right _ _
  · exact hi
  · exact max_le (le_trans (Nat.div_le_self i 2) hi) (by norm_num)

/-- Iterating the learning-analytics interval step from within `[0, 90]`
stays within `[0, 90]`. -/
lemma foldl_update_interval_la_le_90 (scores : List ℚ) :
    ∀ {i : ℕ}, i ≤ 90 → List.foldl update_interval_la i scores ≤ 90 := by
  induction scores with
  | nil => intro i hi; simpa using hi
  | cons s rest ih =>
      intro i hi
      simpa using ih (update_interval_la_le_90 hi s)

/-- C1 (amended).  `LearningAnalyticsService.update_spaced_repetition`
implements the claimed three-branch interval rule with cap 90 and sets
`nextReviewDate = now + newInterval` days, and iterating it from interval 1
with any sequence of performance scores never yields an interval above 90;
`QuizManagerService._update_spaced_repetition`, however, uses only two
branches - doubling capped at 30 when the session score is at least 80, and
halving floored at 1 otherwise (including scores in `[60, 80)`). -/
theorem C1_spaced_repetition_amended :
    (∀ (i : ℕ) (s : ℚ), update_interval_la i s = updateIntervalSpec i s)
    ∧ (∀ (p : UserProgressS) (s : ℚ) (now : Int),
        (update_spaced_repetition_la p s now).spaced_repetition_interval
          = updateIntervalSpec p.spaced_repetition_interval s
        ∧ (update_spaced_repetition_la p s now).next_review_date
          = some (now + updateIntervalSpec p.spaced_repetition_interval s))
    ∧ (∀ scores : List ℚ, List.foldl update_interval_la 1 scores ≤ 90)
    ∧ (∀ (p : UserProgressS) (s : ℚ) (now : Int),
        (update_spaced_repetition_qm p s now).spaced_repetition_interval
          = if s ≥ 80 then min (p.spaced_repetition_interval * 2) 30
            else max (p.spaced_repetition_interval / 2) 1) := by
  refine ⟨update_interval_la_eq_spec, ?_, ?_, ?_⟩
  · intro p s now
    constructor
    · simp [update_spaced_repetition_la, update_interval_la_eq_spec]
    · simp [update_spaced_repetition_la, update_interval_la_eq_spec]
  · intro scores
    exact foldl_update_interval_la_le_90 scores (by norm_num)
  · intro p s now
    rfl

/-- C1 counterexample.  The claim says a performance score in `[60, 80)`
leaves the interval unchanged, but `QuizManagerService._update_spaced_repetition`
halves it: at interval 5 and score 70 the stored interval becomes 2, not 5. -/
theorem C1_counterexample :
    (update_spaced_repetition_qm
        { progDefault with spaced_repetition_interval := 5 } 70 0).spaced_repetition_interval = 2
    ∧ updateIntervalSpec 5 70 = 5
    ∧ (2 : ℕ) ≠ 5 := by
  refine ⟨by decide, by decide, by decide⟩

/-- C6.  The mastery score stored by the session-completion path
(`_update_user_progress` → `_calculate_mastery_score`) equals the committed
accuracy-plus-experience formula `min(100, averageScore + min(quizzes*2, 20))`
of the updated row; the consistency factor of the source is fixed at 1 and
cancels, so no recency or consistency term affects the result. -/
theorem C6_mastery_score_confirmed :
    ∀ (quiz : QuizB) (session : QuizSessionS) (progress : UserProgressS) (now : Int),
      (update_user_progress quiz session progress now).mastery_score
        = masteryScoreSpec
            (update_user_progress quiz session progress now).average_score
            (update_user_progress quiz session progress now).total_quizzes_taken := by
  intro quiz session progress now
  simp only [update_user_progress, update_spaced_repetition_qm,
    calculate_mastery_score, masteryScoreSpec, mul_one]
  exact min_comm _ _

/-- C5 counterexample.  For the unsupported question type `"essay"` the
evaluator does not fail: it silently returns the verdict `False`, even when
the submitted answer matches the stored answer exactly. -/
theorem C5_counterexample :
    evaluate_answer "essay" (PyVal.str "yes") (PyVal.str "yes") = false := by
  decide

/-- C5 (amended).  For every question type outside the four supported ones
the evaluator returns the verdict `False` (it raises no
`UnsupportedQuestionType` error); evaluation is a pure function, so it has no
side effects. -/
theorem C5_unsupported_type_amended :
    ∀ (qt : String) (c u : PyVal),
      qt ≠ "multiple_choice" → qt ≠ "true_false" → qt ≠ "fill_in_blank" →
      qt ≠ "short_answer" →
      evaluate_answer qt c u = false := by
  intro qt c u h1 h2 h3 h4
  simp [evaluate_answer, h1, h2, h3, h4]

/-- Witness for C5: the type `"matching"` is unsupported and the evaluator
returns `False` for it. -/
theorem C5_witness :
    evaluate_answer "matching" (PyVal.str "a") (PyVal.str "a") = false :=
  C5_unsupported_type_amended "matching" (PyVal.str "a") (PyVal.str "a")
    (by decide) (by decide) (by decide) (by decide)

/-- The true/false branch of the evaluator is exactly a comparison of Python
truthiness. -/
lemma evaluate_true_false (c u : PyVal) :
    evaluate_answer "true_false" c u = (u.truthy == c.truthy) := by
  unfold evaluate_answer
  rw [if_neg (by decide), if_pos rfl]

/-- C10.  True/false evaluation compares `bool(user_answer)` with
`bool(correct_answer)` under Python truthiness: any non-empty submitted
string (such as `"false"`) is judged correct whenever the stored correct
answer is a non-empty string, and a falsy submitted value (empty string, 0,
`None`) is judged correct exactly when the stored correct answer is falsy
too. -/
theorem C10_true_false_truthiness :
    (∀ (c u : PyVal), evaluate_answer "true_false" c u = (u.truthy == c.truthy))
    ∧ (∀ (u c : String), u ≠ "" → c ≠ "" →
        evaluate_answer "true_false" (PyVal.str c) (PyVal.str u) = true)
    ∧ (∀ (c u : PyVal), u.truthy = false →
        (evaluate_answer "true_false" c u = true ↔ c.truthy = false)) := by
  refine ⟨evaluate_true_false, ?_, ?_⟩
  · intro u c hu hc
    rw [evaluate_true_false]
    have hu1 : u.isEmpty = false := by
      cases h : u.isEmpty
      · rfl
      · exact absurd ((String.isEmpty_iff u).mp h) hu
    have hc1 : c.isEmpty = false := by
      cases h : c.isEmpty
      · rfl
      · exact absurd ((String.isEmpty_iff c).mp h) hc
    simp [PyVal.truthy, hu1, hc1]
  · intro c u hu
    rw [evaluate_true_false, hu]
    cases h : c.truthy <;> simp

/-- Witness for C10: the submitted string `"false"` is judged CORRECT against
the stored correct answer `"true"`, because both are truthy. -/
theorem C10_witness :
    evaluate_answer "true_false" (PyVal.str "true") (PyVal.str "false") = true :=
  C10_true_false_truthiness.2.1 "false" "true" (by decide) (by decide)

/-- A completed session with a given score, used to exercise the insight
generator (only `score` is read by it). -/
def mkCompletedSession (sc : ℚ) : QuizSessionS :=
  { start_quiz_session "qz" (some "u") "s" [] 0 with
    status := QuizStatus.completed
    score := sc }

/-- First-half average score, `learning_analytics.py` line 750. -/
def firstHalfAvg (sessions : List QuizSessionS) : ℚ :=
  sumScores (sessions.take (sessions.length / 2)) / ((sessions.length / 2 : ℕ) : ℚ)

/-- Second-half average score, `learning_analytics.py` line 751. -/
def secondHalfAvg (sessions : List QuizSessionS) : ℚ :=
  sumScores (sessions.drop (sessions.length / 2))
    / ((sessions.length - sessions.length / 2 : ℕ) : ℚ)

/-- With at least two sessions the insight generator is the two-threshold
comparison of the half averages. -/
lemma generate_performance_insights_eq (sessions : List QuizSessionS)
    (h : 2 ≤ sessions.length) :
    generate_performance_insights sessions =
      if secondHalfAvg sessions > firstHalfAvg sessions + 5 then
        [{ type := "improvement", confidence := 8/10 }]
      else if firstHalfAvg sessions > secondHalfAvg sessions + 5 then
        [{ type := "regression", confidence := 8/10 }]
      else [] := by
  unfold generate_performance_insights
  rw [if_pos h]
  rfl

/-- C9 counterexample.  With two sessions scoring 70 and 75 the halves differ
by exactly 5 points, which the claim says triggers an improvement insight;
the source condition is strict (`>`), so no insight is emitted. -/
theorem C9_counterexample :
    generate_performance_insights [mkCompletedSession 70, mkCompletedSession 75] = []
    ∧ secondHalfAvg [mkCompletedSession 70, mkCompletedSession 75]
        - firstHalfAvg [mkCompletedSession 70, mkCompletedSession 75] = 5 := by
  have h1 : firstHalfAvg [mkCompletedSession 70, mkCompletedSession 75] = 70 := by
    norm_num [firstHalfAvg, sumScores, mkCompletedSession, start_quiz_session]
  have h2 : secondHalfAvg [mkCompletedSession 70, mkCompletedSession 75] = 75 := by
    norm_num [secondHalfAvg, sumScores, mkCompletedSession, start_quiz_session]
  constructor
  · rw [generate_performance_insights_eq _ (by norm_num), h1, h2]
    norm_num
  · rw [h1, h2]
    norm_num

/-- C9 (amended).  With at least two chronologically ordered completed
sessions, the insight generator compares the first-half with the second-half
average score and emits an improvement (resp. regression) insight at
confidence 0.8 exactly when the later average STRICTLY exceeds the earlier
one by more than 5 points (a delta of exactly 5 triggers nothing). -/
theorem C9_insights_amended :
    ∀ (sessions : List QuizSessionS), 2 ≤ sessions.length →
      (generate_performance_insights sessions
          = [{ type := "improvement", confidence := 8/10 }]
        ↔ secondHalfAvg sessions > firstHalfAvg sessions + 5)
      ∧ (generate_performance_insights sessions
          = [{ type := "regression", confidence := 8/10 }]
        ↔ firstHalfAvg sessions > secondHalfAvg sessions + 5)
      ∧ (generate_performance_insights sessions = []
        ↔ ¬(secondHalfAvg sessions > firstHalfAvg sessions + 5)
          ∧ ¬(firstHalfAvg sessions > secondHalfAvg sessions + 5)) := by
  intro sessions h
  rw [generate_performance_insights_eq sessions h]
  split_ifs with h1 h2
  · have hno : ¬(firstHalfAvg sessions > secondHalfAvg sessions + 5) := by linarith
    refine ⟨by simp [h1], by simp [hno], by simp [h1]⟩
  · refine ⟨by simp [h1], by simp [h2], by simp [h2]⟩
  · refine ⟨by simp [h1], by simp [h2], by simp [h1, h2]⟩

/-- Witness for C9: sessions scoring 70 then 80 (delta 10 > 5) yield exactly
one improvement insight at confidence 0.8. -/
theorem C9_witness :
    generate_performance_insights [mkCompletedSession 70, mkCompletedSession 80]
      = [{ type := "improvement", confidence := 8/10 }] :=
  (C9_insights_amended [mkCompletedSession 70, mkCompletedSession 80]
      (by norm_num)).1.mpr
    (by norm_num [firstHalfAvg, secondHalfAvg, sumScores, mkCompletedSession,
        start_quiz_session])

/-- Two storage rows with the same `(session_id, question_id)` pair but
distinct primary keys. -/
def dupRow1 : UserResponseRow :=
  { id := "resp-1", session_id := "sess-1", question_id := "ques-1" }

/-- Second row of the duplicate pair. -/
def dupRow2 : UserResponseRow :=
  { id := "resp-2", session_id := "sess-1", question_id := "ques-1" }

/-- C4 counterexample.  The `user_responses` table declares no uniqueness
constraint on `(session_id, question_id)` - its only unique column is the
primary key `id` - so the storage layer accepts a table containing two
distinct rows for the same `(session, question)` pair.  The duplicate
rejection is therefore NOT enforced by a storage-layer uniqueness
constraint, contradicting the claim. -/
theorem C4_counterexample :
    user_responses_schema_ok [dupRow1, dupRow2]
    ∧ dupRow1.session_id = dupRow2.session_id
    ∧ dupRow1.question_id = dupRow2.question_id
    ∧ dupRow1 ≠ dupRow2 := by
  refine ⟨by decide, by decide, by decide, by decide⟩

/-- C4 (amended).  A second `submit_answer` for a `(session, question)` pair
that already has a response always fails (ValueError
`"Question already answered"`, the `DuplicateAnswer` case) and records no
second response - but the rejection comes from the service-level
check-then-insert at `quiz_manager.py` lines 269-277, not from a
storage-layer uniqueness constraint. -/
theorem C4_duplicate_rejected_amended :
    ∀ (quiz : QuizB) (st : SessionState) (req : AnswerRequest) (now : Int),
      req.session_id = st.session.id →
      st.session.status = QuizStatus.in_progress →
      (st.session.questions_data.find? (fun q => q.id == req.question_id)).isSome = true →
      (st.responses.any (fun r =>
          r.session_id == req.session_id && r.question_id == req.question_id)) = true →
      submit_answer quiz st req now = Except.error SubmitError.duplicateAnswer
      ∧ run_submits quiz st [(req, now)] = st := by
  intro quiz st req now hsid hstat hsome hdup
  obtain ⟨q, hfind⟩ := Option.isSome_iff_exists.mp hsome
  have herr : submit_answer quiz st req now = Except.error SubmitError.duplicateAnswer := by
    unfold submit_answer
    rw [if_neg (by simp [hsid]), if_neg (by simp [hstat]), hfind]
    simp [hdup]
  exact ⟨herr, by simp [run_submits, herr]⟩

/-- A quiz configuration with the default passing score of 70
(`quiz_models.py` line 27). -/
def sampleQuiz : QuizB :=
  { topic := "t", difficulty_level := "beginner", passing_score := 70 }

/-- Characterisation of a successful `submit_answer`: all four checks pass
and the new state appends exactly one response and advances the counters,
completing the session when the counter reaches the total. -/
lemma submit_answer_ok (quiz : QuizB) (st : SessionState) (req : AnswerRequest)
    (now : Int) (st1 : SessionState)
    (hok : submit_answer quiz st req now = Except.ok st1) :
    req.session_id = st.session.id
    ∧ st.session.status = QuizStatus.in_progress
    ∧ ∃ q, st.session.questions_data.find? (fun qq => qq.id == req.question_id) = some q
      ∧ (st.responses.any (fun r => r.session_id == req.session_id
            && r.question_id == req.question_id)) = false
      ∧ st1.responses = st.responses ++
          [{ session_id := req.session_id, question_id := req.question_id,
             question_type := q.question_type, question_text := q.question_text,
             correct_answer := q.correct_answer, topic := q.topic,
             difficulty := q.difficulty, user_answer := req.user_answer,
             is_correct := evaluate_answer q.question_type q.correct_answer req.user_answer,
             time_taken := req.time_taken }]
      ∧ st1.session =
          (if st.session.answered_questions + 1 ≥ st.session.total_questions then
            complete_quiz_session quiz
              { st.session with
                answered_questions := st.session.answered_questions + 1
                correct_answers := st.session.correct_answers
                  + (if evaluate_answer q.question_type q.correct_answer req.user_answer
                     then 1 else 0)
                current_question := st.session.current_question + 1 } now
          else
            { st.session with
              answered_questions := st.session.answered_questions + 1
              correct_answers := st.session.correct_answers
                + (if evaluate_answer q.question_type q.correct_answer req.user_answer
                   then 1 else 0)
              current_question := st.session.current_question + 1 }) := by
  by_cases h1 : req.session_id = st.session.id
  swap
  · unfold submit_answer at hok
    rw [if_pos h1] at hok
    cases hok
  by_cases h2 : st.session.status = QuizStatus.in_progress
  swap
  · unfold submit_answer at hok
    rw [if_neg (by simpa using h1), if_pos h2] at hok
    cases hok
  cases hfind : st.session.questions_data.find? (fun qq => qq.id == req.question_id) with
  | none =>
      unfold submit_answer at hok
      rw [if_neg (by simpa using h1), if_neg (by simpa using h2), hfind] at hok
      cases hok
  | some q =>
      by_cases h3 : (st.responses.any (fun r => r.session_id == req.session_id
          && r.question_id == req.question_id)) = true
      · unfold submit_answer at hok
        rw [if_neg (by simpa using h1), if_neg (by simpa using h2), hfind] at hok
        dsimp only at hok
        rw [if_pos h3] at hok
        cases hok
      · unfold submit_answer at hok
        rw [if_neg (by simpa using h1), if_neg (by simpa using h2), hfind] at hok
        dsimp only at hok
        rw [if_neg h3] at hok
        simp only [Except.ok.injEq] at hok
        subst hok
        exact ⟨h1, h2, q, rfl, Bool.eq_false_iff.mpr h3, rfl, rfl⟩

/-- C3.  Whenever a successful answer submission makes `answered_questions`
reach `total_questions`, the same transition (one atomic transaction in the
source) leaves the session `completed` with
`score = correctAnswers/totalQuestions*100` and
`passed = (score >= quiz.passing_score)`. -/
theorem C3_completion_confirmed :
    ∀ (quiz : QuizB) (st : SessionState) (req : AnswerRequest) (now : Int)
      (st1 : SessionState),
      submit_answer quiz st req now = Except.ok st1 →
      st1.session.answered_questions = st.session.total_questions →
      st1.session.status = QuizStatus.completed
      ∧ st1.session.score
          = ((st1.session.correct_answers : ℚ) / (st.session.total_questions : ℚ)) * 100
      ∧ st1.session.passed = decide (st1.session.score ≥ quiz.passing_score) := by
  intro quiz st req now st1 hok hfull
  obtain ⟨h1, h2, q, hfind, hnodup, hresp, hsess⟩ :=
    submit_answer_ok quiz st req now st1 hok
  rw [hsess] at hfull ⊢
  by_cases hge : st.session.answered_questions + 1 ≥ st.session.total_questions
  · rw [if_pos hge] at hfull ⊢
    exact ⟨rfl, rfl, rfl⟩
  · rw [if_neg hge] at hfull
    exfalso
    simp only at hfull
    omega

/-- The tenth question of the witness session for C3. -/
def finalQ : QuizQuestionD :=
  { id := "q10", question_type := "multiple_choice", question_text := "Last one"
    correct_answer := PyVal.str "b", topic := "t", difficulty := "beginner"
    explanation := "" }

/-- A 10-question session with 9 answered and 7 correct, one question left. -/
def preFinalState : SessionState :=
  { session :=
      { id := "sess-9", quiz_id := "quiz-1", user_id := some "u"
        status := QuizStatus.in_progress, started_at := 0
        completed_at := Option.none, total_questions := 10
        answered_questions := 9, correct_answers := 7, score := 0
        passed := false, current_question := 9, questions_data := [finalQ] }
    responses := [] }

/-- The correct answer to the last open question of `preFinalState`. -/
def finalReq : AnswerRequest :=
  { session_id := "sess-9", question_id := "q10"
    user_answer := PyVal.str "b", time_taken := some 5 }

/-- The state after submitting the final (correct) answer: 8 of 10 correct. -/
def submittedFinal : SessionState :=
  run_submits sampleQuiz preFinalState [(finalReq, 3)]

/-- Witness for C3: completing the 10-question session with 8 correct
answers and passing score 70 ends with `score = 80` and `passed = true`. -/
theorem C3_witness :
    (submittedFinal.session.status = QuizStatus.completed
      ∧ submittedFinal.session.score
          = ((submittedFinal.session.correct_answers : ℚ)
              / (preFinalState.session.total_questions : ℚ)) * 100
      ∧ submittedFinal.session.passed
          = decide (submittedFinal.session.score ≥ sampleQuiz.passing_score))
    ∧ submittedFinal.session.score = 80
    ∧ submittedFinal.session.passed = true := by
  have h := C3_completion_confirmed sampleQuiz preFinalState finalReq 3 submittedFinal
    rfl rfl
  have hc : submittedFinal.session.correct_answers = 8 := rfl
  have hscore : submittedFinal.session.score = 80 := by
    rw [h.2.1, hc]
    norm_num [preFinalState]
  refine ⟨h, hscore, ?_⟩
  rw [h.2.2, hscore]
  norm_num [sampleQuiz]

/-- First question of the duplicate-submission witness session. -/
def dupQuestion1 : QuizQuestionD :=
  { id := "ques-1", question_type := "multiple_choice", question_text := "Pick a."
    correct_answer := PyVal.str "a", topic := "t", difficulty := "beginner"
    explanation := "" }

/-- Second question of the duplicate-submission witness session. -/
def dupQuestion2 : QuizQuestionD :=
  { id := "ques-2", question_type := "multiple_choice", question_text := "Pick b."
    correct_answer := PyVal.str "b", topic := "t", difficulty := "beginner"
    explanation := "" }

/-- The already-recorded response for `(sess-1, ques-1)`. -/
def dupResponse : UserResponseS :=
  { session_id := "sess-1", question_id := "ques-1"
    question_type := "multiple_choice", question_text := "Pick a."
    correct_answer := PyVal.str "a", topic := "t", difficulty := "beginner"
    user_answer := PyVal.str "a", is_correct := true, time_taken := Option.none }

/-- A two-question in-progress session in which `ques-1` is already
answered. -/
def dupState : SessionState :=
  { session :=
      { start_quiz_session "quiz-1" (some "u") "sess-1" [dupQuestion1, dupQuestion2] 0 with
        answered_questions := 1, correct_answers := 1, current_question := 1 }
    responses := [dupResponse] }

/-- A second submission for the already-answered `(sess-1, ques-1)` pair. -/
def dupReq : AnswerRequest :=
  { session_id := "sess-1", question_id := "ques-1"
    user_answer := PyVal.str "a", time_taken := Option.none }

/-- Witness for C4: resubmitting to an already-answered pair fails with the
duplicate-answer error. -/
theorem C4_witness :
    submit_answer sampleQuiz dupState dupReq 5
      = Except.error SubmitError.duplicateAnswer :=
  (C4_duplicate_rejected_amended sampleQuiz dupState dupReq 5 rfl rfl
    (by decide) (by decide)).1

/-- Invariant tying a session row to its responses: the answered counter
counts the responses, responses are pairwise distinct per question and all
belong to this session and its snapshot, the total matches the snapshot
length, and score/passed still hold their column defaults while the session
is in progress. -/
def SessionInv (st : SessionState) : Prop :=
  st.session.answered_questions = st.responses.length
  ∧ (st.responses.map (fun r => r.question_id)).Nodup
  ∧ (∀ r ∈ st.responses,
      r.question_id ∈ st.session.questions_data.map (fun q => q.id))
  ∧ (∀ r ∈ st.responses, r.session_id = st.session.id)
  ∧ st.session.total_questions = st.session.questions_data.length
  ∧ (st.session.status = QuizStatus.in_progress →
      st.session.score = 0 ∧ st.session.passed = false)

/-- A freshly started session satisfies the invariant. -/
lemma start_inv (quiz_id : String) (uid : Option String) (sid : String)
    (questions : List QuizQuestionD) (t0 : Int) :
    SessionInv ⟨start_quiz_session quiz_id uid sid questions t0, []⟩ := by
  refine ⟨rfl, List.nodup_nil, ?_, ?_, rfl, fun _ => ⟨rfl, rfl⟩⟩
  · intro r hr
    cases hr
  · intro r hr
    cases hr

/-- The invariant says at most as many answers as snapshot questions. -/
lemma SessionInv.answered_le (st : SessionState) (h : SessionInv st) :
    st.session.answered_questions ≤ st.session.total_questions := by
  obtain ⟨hlen, hnd, hsub, _, htot, _⟩ := h
  have hsub2 : (st.responses.map (fun r => r.question_id))
      ⊆ (st.session.questions_data.map (fun q => q.id)) := by
    intro x hx
    obtain ⟨r, hr, rfl⟩ := List.mem_map.mp hx
    exact hsub r hr
  have hle := (List.subperm_of_subset hnd hsub2).length_le
  simp only [List.length_map] at hle
  rw [hlen, htot]
  exact hle

/-- A successful submission preserves the invariant. -/
lemma submit_preserves_inv (quiz : QuizB) (st : SessionState)
    (req : AnswerRequest) (now : Int) (st1 : SessionState)
    (hinv : SessionInv st) (hok : submit_answer quiz st req now = Except.ok st1) :
    SessionInv st1 := by
  obtain ⟨hlen, hnd, hsub, hsid, htot, hdef⟩ := hinv
  obtain ⟨h1, h2, q, hfind, h3, hresp, hsess⟩ :=
    submit_answer_ok quiz st req now st1 hok
  have hqid : q.id = req.question_id := by
    have := List.find?_some hfind
    exact eq_of_beq this
  have hqmem : q ∈ st.session.questions_data := List.mem_of_find?_eq_some hfind
  have hnew_notmem : req.question_id ∉ st.responses.map (fun r => r.question_id) := by
    intro hmem
    obtain ⟨r, hr, hrq⟩ := List.mem_map.mp hmem
    have hfalse := (List.any_eq_false.mp h3) r hr
    have hrs : r.session_id = st.session.id := hsid r hr
    rw [hrq] at hfalse
    simp [hrs, h1] at hfalse
  have hsa : st1.session.answered_questions = st.session.answered_questions + 1 := by
    rw [hsess]; split <;> rfl
  have hst : st1.session.total_questions = st.session.total_questions := by
    rw [hsess]; split <;> rfl
  have hsq : st1.session.questions_data = st.session.questions_data := by
    rw [hsess]; split <;> rfl
  have hsid2 : st1.session.id = st.session.id := by
    rw [hsess]; split <;> rfl
  refine ⟨?_, ?_, ?_, ?_, ?_, ?_⟩
  · rw [hsa, hresp, List.length_append, hlen]
    rfl
  · rw [hresp, List.map_append]
    simp only [List.map_cons, List.map_nil]
    rw [List.nodup_append]
    refine ⟨hnd, List.nodup_singleton _, ?_⟩
    intro x hx hx1
    simp only [List.mem_singleton] at hx1
    subst hx1
    exact hnew_notmem hx
  · intro r hr
    rw [hresp] at hr
    rw [hsq]
    rcases List.mem_append.mp hr with hr1 | hr2
    · exact hsub r hr1
    · simp only [List.mem_singleton] at hr2
      subst hr2
      simp only
      rw [← hqid]
      exact List.mem_map_of_mem (fun qq => qq.id) hqmem
  · intro r hr
    rw [hresp] at hr
    rw [hsid2]
    rcases List.mem_append.mp hr with hr1 | hr2
    · exact hsid r hr1
    · simp only [List.mem_singleton] at hr2
      subst hr2
      simpa using h1
  · rw [hst, hsq]
    exact htot
  · intro hstat
    rw [hsess] at hstat ⊢
    by_cases hge : st.session.answered_questions + 1 ≥ st.session.total_questions
    · rw [if_pos hge] at hstat
      simp [complete_quiz_session] at hstat
    · rw [if_neg hge] at hstat ⊢
      exact hdef hstat

/-- Running any request list preserves the invariant (a failed submission
rolls back, leaving the state unchanged). -/
lemma run_preserves_inv (quiz : QuizB) (reqs : List (AnswerRequest × Int)) :
    ∀ (st : SessionState), SessionInv st → SessionInv (run_submits quiz st reqs) := by
  induction reqs with
  | nil => intro st h; exact h
  | cons rn rest ih =>
      intro st h
      rw [run_submits, List.foldl_cons]
      cases hs : submit_answer quiz st rn.1 rn.2 with
      | ok s1 =>
          have h1 := submit_preserves_inv quiz st rn.1 rn.2 s1 h hs
          simpa [run_submits] using ih s1 h1
      | error e =>
          simpa [run_submits] using ih st h

/-- Submitting to a session that is no longer in progress fails with the
session-not-active error, leaving the terminal status in place. -/
lemma submit_not_active (quiz : QuizB) (st : SessionState) (req : AnswerRequest)
    (now : Int) (hid : req.session_id = st.session.id)
    (hstat : st.session.status ≠ QuizStatus.in_progress) :
    submit_answer quiz st req now = Except.error SubmitError.sessionNotActive := by
  unfold submit_answer
  rw [if_neg (by simpa using hid), if_pos hstat]

/-- C8.  From any freshly started session, any sequence of answer
submissions keeps `answeredQuestions ≤ totalQuestions`; while the session is
still `in_progress` the score and passed flag hold their defaults (they are
set only at completion); and once the status is terminal every further
submission fails with the session-not-active error, so the status can never
move back. -/
theorem C8_session_invariants :
    ∀ (quiz : QuizB) (quiz_id : String) (uid : Option String) (sid : String)
      (questions : List QuizQuestionD) (t0 : Int)
      (reqs : List (AnswerRequest × Int)),
      let stf := run_submits quiz ⟨start_quiz_session quiz_id uid sid questions t0, []⟩ reqs
      stf.session.answered_questions ≤ stf.session.total_questions
      ∧ (stf.session.status = QuizStatus.in_progress →
          stf.session.score = 0 ∧ stf.session.passed = false)
      ∧ (∀ (req : AnswerRequest) (n : Int),
          req.session_id = stf.session.id →
          stf.session.status ≠ QuizStatus.in_progress →
          submit_answer quiz stf req n = Except.error SubmitError.sessionNotActive) := by
  intro quiz quiz_id uid sid questions t0 reqs
  have hinv : SessionInv
      (run_submits quiz ⟨start_quiz_session quiz_id uid sid questions t0, []⟩ reqs) :=
    run_preserves_inv quiz reqs _ (start_inv quiz_id uid sid questions t0)
  refine ⟨hinv.answered_le _, hinv.2.2.2.2.2, ?_⟩
  intro req n hid hstat
  exact submit_not_active quiz _ req n hid hstat

/-- The single question of the C8 witness session. -/
def c8Question : QuizQuestionD :=
  { id := "cq-1", question_type := "true_false", question_text := "T?"
    correct_answer := PyVal.str "true", topic := "t", difficulty := "beginner"
    explanation := "" }

/-- The one answer of the C8 witness run (and the rejected resubmission). -/
def c8Req : AnswerRequest :=
  { session_id := "sess-c8", question_id := "cq-1"
    user_answer := PyVal.str "yes", time_taken := Option.none }

/-- Witness for C8: after answering the only question the session is
terminal, and a further submission fails with the session-not-active error. -/
theorem C8_witness :
    submit_answer sampleQuiz
        (run_submits sampleQuiz
          ⟨start_quiz_session "quiz-1" (some "u") "sess-c8" [c8Question] 0, []⟩
          [(c8Req, 0)])
        c8Req 1
      = Except.error SubmitError.sessionNotActive :=
  (C8_session_invariants sampleQuiz "quiz-1" (some "u") "sess-c8" [c8Question] 0
      [(c8Req, 0)]).2.2 c8Req 1 rfl (by decide)

/-- Membership in the due-items list: exactly the items built from rows with
a non-null review date that is not in the future. -/
lemma mem_due_items (records : List UserProgressS) (now : Int)
    (it : SpacedRepetitionItem) :
    it ∈ get_spaced_repetition_items records now ↔
      ∃ p ∈ records, ∃ d : Int, p.next_review_date = some d ∧ d ≤ now
        ∧ it = sr_item_of p d := by
  unfold get_spaced_repetition_items
  rw [(List.perm_insertionSort srKeyLE _).mem_iff, List.mem_filterMap]
  constructor
  · rintro ⟨p, hp, hf⟩
    cases hd : p.next_review_date with
    | none => rw [hd] at hf; cases hf
    | some d =>
        rw [hd] at hf
        dsimp only at hf
        by_cases hle : d ≤ now
        · rw [if_pos hle] at hf
          cases hf
          exact ⟨p, hp, d, hd, hle, rfl⟩
        · rw [if_neg hle] at hf
          cases hf
  · rintro ⟨p, hp, d, hd, hle, rfl⟩
    exact ⟨p, hp, by rw [hd]; dsimp only; rw [if_pos hle]⟩

/-- C2 (amended).  `get_spaced_repetition_items` returns exactly the items of
the progress rows whose `next_review_date` is non-null and `<= now`, each
with `success_rate = correct/answered` (0 when nothing answered), sorted by
review date ascending with ties broken by success rate DESCENDING (the
source key negates the success rate). -/
theorem C2_due_items_amended :
    ∀ (records : List UserProgressS) (now : Int),
      List.Sorted srKeyLE (get_spaced_repetition_items records now)
      ∧ (∀ it ∈ get_spaced_repetition_items records now, it.next_review ≤ now)
      ∧ (∀ p ∈ records, ∀ d : Int, p.next_review_date = some d → d ≤ now →
          sr_item_of p d ∈ get_spaced_repetition_items records now)
      ∧ (∀ it ∈ get_spaced_repetition_items records now,
          ∃ p ∈ records, ∃ d : Int, p.next_review_date = some d ∧ d ≤ now
            ∧ it = sr_item_of p d)
      ∧ (∀ (p : UserProgressS) (d : Int),
          (sr_item_of p d).success_rate
            = if p.total_questions_answered = 0 then 0
              else (p.correct_answers : ℚ) / (p.total_questions_answered : ℚ)) := by
  intro records now
  refine ⟨?_, ?_, ?_, ?_, ?_⟩
  · unfold get_spaced_repetition_items
    exact List.sorted_insertionSort srKeyLE _
  · intro it hit
    obtain ⟨p, hp, d, hd, hle, rfl⟩ := (mem_due_items records now it).mp hit
    exact hle
  · intro p hp d hd hle
    exact (mem_due_items records now _).mpr ⟨p, hp, d, hd, hle, rfl⟩
  · intro it hit
    exact (mem_due_items records now it).mp hit
  · intro p d
    unfold sr_item_of
    rcases Nat.eq_zero_or_pos p.total_questions_answered with h0 | hpos
    · simp [h0]
    · rw [if_pos hpos, if_neg (Nat.pos_iff_ne_zero.mp hpos)]

/-- A due row with a weak success rate (2 of 10). -/
def dueLow : UserProgressS :=
  { progDefault with
    topic := "low"
    total_questions_answered := 10
    correct_answers := 2
    next_review_date := some 50 }

/-- A due row with the same review date and a strong success rate (9 of 10). -/
def dueHigh : UserProgressS :=
  { progDefault with
    topic := "high"
    total_questions_answered := 10
    correct_answers := 9
    next_review_date := some 50 }

/-- C2 counterexample.  Two rows due at the same instant: the STRONG one
(success rate 9/10) is returned first, so the output is not sorted by
success rate ascending as the claim states - the tie-break is descending. -/
theorem C2_counterexample :
    get_spaced_repetition_items [dueLow, dueHigh] 100
      = [sr_item_of dueHigh 50, sr_item_of dueLow 50]
    ∧ ¬ List.Sorted srClaimLE (get_spaced_repetition_items [dueLow, dueHigh] 100) := by
  have hnot : ¬ srKeyLE (sr_item_of dueLow 50) (sr_item_of dueHigh 50) := by
    unfold srKeyLE srKey
    rw [Prod.Lex.le_iff]
    rintro (h | ⟨_, h⟩)
    · exact absurd h (lt_irrefl _)
    · revert h
      show ¬ -(sr_item_of dueLow 50).success_rate ≤ -(sr_item_of dueHigh 50).success_rate
      norm_num [sr_item_of, dueLow, dueHigh, progDefault]
  have heq : get_spaced_repetition_items [dueLow, dueHigh] 100
      = [sr_item_of dueHigh 50, sr_item_of dueLow 50] := by
    have h1 : ([dueLow, dueHigh].filterMap (fun p =>
        match p.next_review_date with
        | some d => if d ≤ (100 : Int) then some (sr_item_of p d) else Option.none
        | Option.none => Option.none))
        = [sr_item_of dueLow 50, sr_item_of dueHigh 50] := by
      simp [dueLow, dueHigh, progDefault]
    unfold get_spaced_repetition_items
    rw [h1]
    show List.orderedInsert srKeyLE (sr_item_of dueLow 50)
        (List.orderedInsert srKeyLE (sr_item_of dueHigh 50) []) = _
    rw [List.orderedInsert, List.orderedInsert, if_neg hnot]
    rfl
  refine ⟨heq, ?_⟩
  rw [heq]
  intro hsorted
  have h12 := List.rel_of_sorted_cons hsorted _ (List.mem_singleton_self _)
  unfold srClaimLE at h12
  rw [Prod.Lex.le_iff] at h12
  rcases h12 with h | ⟨_, h⟩
  · exact absurd h (lt_irrefl _)
  · revert h
    show ¬ (sr_item_of dueHigh 50).success_rate ≤ (sr_item_of dueLow 50).success_rate
    norm_num [sr_item_of, dueLow, dueHigh, progDefault]

/-- Witness for C2: a single due row appears in the due-items list. -/
theorem C2_witness :
    sr_item_of dueLow 50 ∈ get_spaced_repetition_items [dueLow] 100 :=
  (C2_due_items_amended [dueLow] 100).2.2.1 dueLow (by simp) 50 rfl (by norm_num)

/-- Membership in the gap list: exactly the entries of the tally with
accuracy below 70, packaged with severity and the first 5 missed
questions. -/
lemma mem_gapsOf (tp : List (String × TopicPerf)) (g : GapInfo) :
    g ∈ gapsOf tp ↔ ∃ kv ∈ tp,
      ((kv.2.correct : ℚ) / (kv.2.total : ℚ)) * 100 < 70
      ∧ g = { topic := kv.1
              accuracy := ((kv.2.correct : ℚ) / (kv.2.total : ℚ)) * 100
              total_questions := kv.2.total
              weak_areas := kv.2.questions.take 5
              severity :=
                if ((kv.2.correct : ℚ) / (kv.2.total : ℚ)) * 100 < 50 then "high"
                else "medium" } := by
  unfold gapsOf
  rw [List.mem_filterMap]
  constructor
  · rintro ⟨kv, hkv, hf⟩
    dsimp only at hf
    by_cases hacc : ((kv.2.correct : ℚ) / (kv.2.total : ℚ)) * 100 < 70
    · rw [if_pos hacc] at hf
      cases hf
      exact ⟨kv, hkv, hacc, rfl⟩
    · rw [if_neg hacc] at hf
      cases hf
  · rintro ⟨kv, hkv, hacc, rfl⟩
    exact ⟨kv, hkv, by dsimp only; rw [if_pos hacc]⟩

/-- One tally step either keeps the key list or appends the new topic. -/
lemma tp_step_keys (acc : List (String × TopicPerf)) (r : UserResponseS) :
    (tp_step acc r).map Prod.fst
      = if acc.any (fun kv => kv.1 == r.topic) then acc.map Prod.fst
        else acc.map Prod.fst ++ [r.topic] := by
  unfold tp_step
  split_ifs with h
  · rw [List.map_map]
    apply List.map_congr_left
    intro kv _
    dsimp only [Function.comp]
    split <;> rfl
  · simp

/-- One tally step keeps the topic keys pairwise distinct. -/
lemma tp_step_keys_nodup (acc : List (String × TopicPerf)) (r : UserResponseS)
    (h : (acc.map Prod.fst).Nodup) : ((tp_step acc r).map Prod.fst).Nodup := by
  rw [tp_step_keys]
  split_ifs with hany
  · exact h
  · rw [List.nodup_append]
    refine ⟨h, List.nodup_singleton _, ?_⟩
    intro x hx hx2
    simp only [List.mem_singleton] at hx2
    subst hx2
    obtain ⟨kv, hkv, hfst⟩ := List.mem_map.mp hx
    have hfalse := List.any_eq_false.mp (Bool.eq_false_iff.mpr hany) kv hkv
    rw [hfst] at hfalse
    simp at hfalse

/-- The tally of any response list has pairwise distinct topic keys. -/
lemma topic_performance_keys_nodup (responses : List UserResponseS) :
    ((topic_performance responses).map Prod.fst).Nodup := by
  unfold topic_performance
  suffices h : ∀ acc : List (String × TopicPerf), (acc.map Prod.fst).Nodup →
      ((responses.foldl tp_step acc).map Prod.fst).Nodup from
    h [] List.nodup_nil
  induction responses with
  | nil => intro acc h; exact h
  | cons r rest ih =>
      intro acc h
      rw [List.foldl_cons]
      exact ih _ (tp_step_keys_nodup acc r h)

/-- In a pair list with pairwise distinct keys, two members with the same key
are the same pair. -/
lemma eq_of_mem_keys_nodup {α β : Type} {l : List (α × β)}
    (h : (l.map Prod.fst).Nodup) {a b : α × β} (ha : a ∈ l) (hb : b ∈ l)
    (hab : a.1 = b.1) : a = b := by
  induction l with
  | nil => cases ha
  | cons x xs ih =>
      rw [List.map_cons, List.nodup_cons] at h
      rcases List.mem_cons.mp ha with rfl | ha2
      · rcases List.mem_cons.mp hb with rfl | hb2
        · rfl
        · exfalso
          have : a.1 ∈ xs.map Prod.fst := hab ▸ List.mem_map_of_mem Prod.fst hb2
          exact h.1 this
      · rcases List.mem_cons.mp hb with rfl | hb2
        · exfalso
          have : b.1 ∈ xs.map Prod.fst := hab ▸ List.mem_map_of_mem Prod.fst ha2
          exact h.1 this
        · exact ih h.2 ha2 hb2

/-- C7.  With at least one historical response, a topic is reported as a gap
exactly when its accuracy is below 70; each gap carries severity `high`
exactly when its accuracy is below 50 and `medium` otherwise, and at most 5
sample missed questions; the overall confidence is
`min(1, totalResponses/50)`. -/
theorem C7_knowledge_gaps_confirmed :
    ∀ (responses : List UserResponseS), responses.isEmpty = false →
      (∀ g ∈ (identify_knowledge_gaps responses).gaps,
        g.accuracy < 70
        ∧ (g.severity = "high" ↔ g.accuracy < 50)
        ∧ (g.severity = "medium" ↔ 50 ≤ g.accuracy)
        ∧ g.weak_areas.length ≤ 5)
      ∧ (∀ kv ∈ topic_performance responses,
          (((kv.2.correct : ℚ) / (kv.2.total : ℚ)) * 100 < 70
            ↔ ∃ g ∈ (identify_knowledge_gaps responses).gaps, g.topic = kv.1))
      ∧ (identify_knowledge_gaps responses).confidence
          = min 1 ((responses.length : ℚ) / 50) := by
  intro responses hne
  have hgaps : (identify_knowledge_gaps responses).gaps
      = gapsOf (topic_performance responses) := by
    unfold identify_knowledge_gaps
    rw [if_neg (by simp [hne])]
  refine ⟨?_, ?_, ?_⟩
  · intro g hg
    rw [hgaps] at hg
    obtain ⟨kv, hkv, hacc, rfl⟩ := (mem_gapsOf _ g).mp hg
    refine ⟨hacc, ?_, ?_, List.length_take_le 5 _⟩
    · by_cases h50 : ((kv.2.correct : ℚ) / (kv.2.total : ℚ)) * 100 < 50
      · simp [h50]
      · simp [h50]
    · by_cases h50 : ((kv.2.correct : ℚ) / (kv.2.total : ℚ)) * 100 < 50
      · simp [h50, not_le.mpr h50]
      · simp [h50, not_lt.mp h50]
  · intro kv hkv
    constructor
    · intro hacc
      exact ⟨_, hgaps ▸ (mem_gapsOf _ _).mpr ⟨kv, hkv, hacc, rfl⟩, rfl⟩
    · rintro ⟨g, hg, htopic⟩
      rw [hgaps] at hg
      obtain ⟨kv2, hkv2, hacc2, rfl⟩ := (mem_gapsOf _ g).mp hg
      have hkk : kv2 = kv :=
        eq_of_mem_keys_nodup (topic_performance_keys_nodup responses) hkv2 hkv htopic
      rw [← hkk]
      exact hacc2
  · unfold identify_knowledge_gaps
    rw [if_neg (by simp [hne])]

/-- One response of the C7 witness sample (topic `t`). -/
def gapResp (b : Bool) : UserResponseS :=
  { session_id := "s", question_id := "q", question_type := "multiple_choice"
    question_text := "Q", correct_answer := PyVal.str "a", topic := "t"
    difficulty := "beginner", user_answer := PyVal.str "a", is_correct := b
    time_taken := Option.none }

/-- The spec example for gap analysis: 20 responses, 9 correct (45%). -/
def gapSample : List UserResponseS :=
  List.replicate 9 (gapResp true) ++ List.replicate 11 (gapResp false)

/-- Witness for C7: on the 20-response sample with 9 correct the confidence
formula holds, and the one gap reported is topic `t` at accuracy 45 with
severity `high`. -/
theorem C7_witness :
    (identify_knowledge_gaps gapSample).confidence
      = min 1 ((gapSample.length : ℚ) / 50)
    ∧ (identify_knowledge_gaps gapSample).gaps.map
        (fun g => (g.topic, g.severity, g.accuracy)) = [("t", "high", 45)] := by
  have h := C7_knowledge_gaps_confirmed gapSample rfl
  refine ⟨h.2.2, ?_⟩
  have hgaps : (identify_knowledge_gaps gapSample).gaps
      = gapsOf (topic_performance gapSample) := by
    unfold identify_knowledge_gaps
    rw [if_neg (by decide)]
  have htp : topic_performance gapSample
      = [("t", ⟨20, 9, List.replicate 11
          { question := "Q", difficulty := "beginner", type := "multiple_choice" }⟩)] := by
    decide
  rw [hgaps, htp]
  unfold gapsOf
  norm_num [List.filterMap_cons]
